import Mathlib

set_option autoImplicit false

/-!
Shallow embedding of `src/bag_recorder_node.cpp` (NREL-MODAQ2/bag_recorder).

The source is a single ROS 2 node class `BagRecorder` holding configuration
members (`data_folder_`, `file_duration_`, `logged_topics_`), a `recording`
flag, shared pointers `recorder_` / `writer_`, and an executor with which the
recorder node is registered while a session is active.  We embed the class
state as a record, the member functions as state-transforming functions, and
the executor's node registry as the list of recorder ids currently added.
Wall-clock time is threaded explicitly as UTC epoch seconds.  Out-of-bounds
vector access (the `logged_topics_[0]` read on an empty list) has no defined
result in C++, so functions that would perform it return `none`.
-/

namespace BagRec

/-- Mirrors `rosbag2_transport::RecordOptions` as aggregate-initialized in
`start_recording`: `{all, is_discovery_disabled, topics,
rmw_serialization_format, topic_polling_interval}`. -/
structure RecordOptions where
  all : Bool
  is_discovery_disabled : Bool
  topics : List String
  rmw_serialization_format : String
  topic_polling_interval_ms : Nat
deriving Repr, DecidableEq

/-- Mirrors the fields of `rosbag2_storage::StorageOptions` that
`start_recording` assigns (lines 96-102 of the source). -/
structure StorageOptions where
  uri : String
  storage_id : String
  max_bagfile_size : Nat
  max_bagfile_duration : Int
  max_cache_size : Nat
  storage_preset_profile : String
  snapshot_mode : Bool
deriving Repr, DecidableEq

/-- Broken-down UTC time, with `year`, `month`, `day` already in the human
form printed by `std::put_time` (`tm_year + 1900`, `tm_mon + 1`, `tm_mday`). -/
structure Tm where
  year : Nat
  month : Nat
  day : Nat
  hour : Nat
  minute : Nat
  second : Nat
deriving Repr, DecidableEq

/-- Embeds `std::gmtime` on a nonnegative `time_t` (seconds since the Unix
epoch): the standard civil-from-days calendar conversion, specialized to
nonnegative input so that all arithmetic stays in `Nat`. -/
def gmtime (t : Nat) : Tm :=
  let days := t / 86400
  let secs := t % 86400
  let z := days + 719468
  let era := z / 146097
  let doe := z % 146097
  let yoe := (doe - doe / 1460 + doe / 36524 - doe / 146096) / 365
  let y := yoe + era * 400
  let doy := doe - (365 * yoe + yoe / 4 - yoe / 100)
  let mp := (5 * doy + 2) / 153
  let d := doy - (153 * mp + 2) / 5 + 1
  let m := if mp < 10 then mp + 3 else mp - 9
  { year := if m ≤ 2 then y + 1 else y
    month := m
    day := d
    hour := secs / 3600
    minute := secs % 3600 / 60
    second := secs % 60 }

/-- Zero-padded two-digit decimal field, as printed by the `%m`, `%d`, `%H`,
`%M`, `%S` conversions of `std::put_time`. -/
def pad2 (n : Nat) : String :=
  if n < 10 then "0" ++ toString n else toString n

/-- Embeds `BagRecorder::getCurrentUtcTime`: formats the current UTC time with
pattern `%Y_%m_%d_%H_%M_%S` (`%Y` prints the full year, four digits for every
year the `Nat` epoch clock can produce). -/
def getCurrentUtcTime (now : Nat) : String :=
  let t := gmtime now
  toString t.year ++ "_" ++ pad2 t.month ++ "_" ++ pad2 t.day ++ "_" ++
    pad2 t.hour ++ "_" ++ pad2 t.minute ++ "_" ++ pad2 t.second

/-- Embeds `BagRecorder::getDataPath`: `baseFolder + "/Bag_" + systemStartTime`. -/
def getDataPath (baseFolder : String) (now : Nat) : String :=
  baseFolder ++ "/Bag_" ++ getCurrentUtcTime now

/-- Embeds the record-options branch of `start_recording` (lines 110-120):
`if (logged_topics_[0] == "*")` selects record-all with an empty topic list,
otherwise the configured list is passed through verbatim.  On an empty list
the C++ indexes out of bounds (undefined behavior), embedded as `none`. -/
def recordOptionsFor (topics : List String) : Option RecordOptions :=
  match topics with
  | [] => none
  | t :: _ =>
    if t = "*" then
      some { all := true, is_discovery_disabled := false, topics := [],
             rmw_serialization_format := "cdr", topic_polling_interval_ms := 1000 }
    else
      some { all := false, is_discovery_disabled := false, topics := topics,
             rmw_serialization_format := "cdr", topic_polling_interval_ms := 1000 }

/-- Models one constructed `rosbag2_transport::Recorder` instance, tagged with
a fresh id so distinct allocations are distinguishable. -/
structure Recorder where
  id : Nat
  storage : StorageOptions
  options : RecordOptions
deriving Repr, DecidableEq

/-- State of one `BagRecorder` node plus the executor registry it mutates:
the configuration members read in the constructor, the `recorder_` /
`writer_` shared pointers (`none` = null), the `recording` flag, the list of
recorder ids currently added to the executor, a fresh-id counter for new
allocations, the current UTC epoch second, and event counters instrumenting
how many times a session begin / end completed. -/
structure BagState where
  data_folder_ : String
  file_duration_ : Int
  logged_topics_ : List String
  storage_options_ : StorageOptions
  recorder_ : Option Recorder
  writer_ : Option Nat
  recording : Bool
  executorNodes : List Nat
  nextId : Nat
  now : Nat
  beginCount : Nat
  endCount : Nat
deriving Repr, DecidableEq

/-- State right after the `BagRecorder` constructor ran with the given
parameter values: nothing allocated, `recording = false`, nothing registered
with the executor. -/
def initState (dataFolder : String) (fileDuration : Int)
    (loggedTopics : List String) (now : Nat) : BagState :=
  { data_folder_ := dataFolder
    file_duration_ := fileDuration
    logged_topics_ := loggedTopics
    storage_options_ := { uri := "", storage_id := "", max_bagfile_size := 0,
                          max_bagfile_duration := 0, max_cache_size := 0,
                          storage_preset_profile := "", snapshot_mode := false }
    recorder_ := none
    writer_ := none
    recording := false
    executorNodes := []
    nextId := 0
    now := now
    beginCount := 0
    endCount := 0 }

/-- Storage options as assigned by `start_recording` lines 96-102:
`uri = getDataPath(data_folder_)`, storage id `"mcap"`, no size-based
rotation, duration `std::chrono::seconds(file_duration_).count()`, fixed
cache budget, empty preset profile, snapshot mode off. -/
def storageOptionsFor (s : BagState) : StorageOptions :=
  { uri := getDataPath s.data_folder_ s.now
    storage_id := "mcap"
    max_bagfile_size := 0
    max_bagfile_duration := s.file_duration_
    max_cache_size := 10485760
    storage_preset_profile := ""
    snapshot_mode := false }

/-- Embeds `BagRecorder::start_recording`: assign `storage_options_`, allocate
a fresh writer, compute record options from `logged_topics_` (out-of-bounds on
an empty list: `none`), construct a fresh recorder, add it to the executor,
start it, and set `recording = true`.  No step can fail here; the
failure-injecting variant is `startRecordingAt` below. -/
def startRecording (s : BagState) : Option BagState :=
  match recordOptionsFor s.logged_topics_ with
  | none => none
  | some opts =>
    some { s with
      storage_options_ := storageOptionsFor s
      writer_ := some s.nextId
      recorder_ := some { id := s.nextId, storage := storageOptionsFor s, options := opts }
      executorNodes := s.executorNodes ++ [s.nextId]
      recording := true
      nextId := s.nextId + 1
      beginCount := s.beginCount + 1 }

/-- Embeds `BagRecorder::stop_recording`: only if `recording` is set, stop the
recorder, remove its node from the executor, and clear the flag.  The
`recorder_` and `writer_` pointers are left untouched.  (When `recording` is
set, `recorder_` is never null in any reachable state; the `none` branch is
dead code kept only to make the function total.) -/
def stopRecording (s : BagState) : BagState :=
  if s.recording then
    match s.recorder_ with
    | some r =>
      { s with executorNodes := s.executorNodes.erase r.id
               recording := false
               endCount := s.endCount + 1 }
    | none => s
  else s

/-- Embeds `BagRecorder::control_callback`: start when `enable_recording` is
set and not recording; afterwards, stop when `enable_recording` is clear and
recording. -/
def controlCallback (enable : Bool) (s : BagState) : Option BagState :=
  match (if enable && !s.recording then startRecording s else some s) with
  | none => none
  | some s1 => some (if !enable && s1.recording then stopRecording s1 else s1)

/-- Embeds `BagRecorder::reset_bag_recording`: `stop_recording()` then
`start_recording()`, sequentially, with no lock in between. -/
def resetBagRecording (s : BagState) : Option BagState :=
  startRecording (stopRecording s)

/-- Processes a list of control signals in arrival order. -/
def run (sigs : List Bool) (s : BagState) : Option BagState :=
  match sigs with
  | [] => some s
  | e :: rest =>
    match controlCallback e s with
    | none => none
    | some s1 => run rest s1

/-- Individual operations of `start_recording` that can fail at runtime
(throw): writer allocation (line 106), recorder construction (line 122),
executor registration (line 126), starting the recording (line 127). -/
inductive StartStep
  | makeWriter
  | makeRecorder
  | addNode
  | record
deriving Repr, DecidableEq

/-- Failure-injecting embedding of `start_recording`: `failAt = some step`
makes that step throw.  The C++ has no try/catch, so an exception escapes the
function leaving every member assignment already performed in place; the
returned `Bool` is `true` iff the function ran to completion (and hence set
`recording = true`). -/
def startRecordingAt (s : BagState) (failAt : Option StartStep) : BagState × Bool :=
  let s0 := { s with storage_options_ := storageOptionsFor s }
  if failAt = some StartStep.makeWriter then (s0, false)
  else
    let s1 := { s0 with writer_ := some s0.nextId }
    match recordOptionsFor s1.logged_topics_ with
    | none => (s1, false)
    | some opts =>
      if failAt = some StartStep.makeRecorder then (s1, false)
      else
        let r : Recorder := { id := s1.nextId, storage := s1.storage_options_, options := opts }
        let s2 := { s1 with recorder_ := some r }
        if failAt = some StartStep.addNode then (s2, false)
        else
          let s3 := { s2 with executorNodes := s2.executorNodes ++ [r.id] }
          if failAt = some StartStep.record then (s3, false)
          else ({ s3 with recording := true, nextId := s3.nextId + 1,
                          beginCount := s3.beginCount + 1 }, true)

/-- Sample configuration used by the concrete witnesses below. -/
def cfg0 : BagState := initState "/d" 60 ["/a"] 0

/-- State right after the mandatory startup `start_recording()` on `cfg0`. -/
def sampleStart : BagState := (startRecording cfg0).getD cfg0

/-- State after startup followed by one disable signal: back to idle. -/
def sampleIdle : BagState := (run [false] sampleStart).getD cfg0

/-- The recorder object allocated by the startup call on `cfg0`. -/
def sampleRecorder : Recorder :=
  { id := 0
    storage := storageOptionsFor cfg0
    options := { all := false, is_discovery_disabled := false, topics := ["/a"],
                 rmw_serialization_format := "cdr", topic_polling_interval_ms := 1000 } }

/-- State after startup, stop, and a second start on `cfg0`. -/
def sampleRestart : BagState := (startRecording (stopRecording sampleStart)).getD cfg0

/-- State reached from `sampleIdle` by one enable signal. -/
def sampleNext : BagState := (controlCallback true sampleIdle).getD cfg0

/-- Controller state invariant: while `recording` is set, exactly the current
recorder's node is registered with the executor; while clear, no recorder node
is registered. -/
def Inv (s : BagState) : Prop :=
  (s.recording = true → ∃ r, s.recorder_ = some r ∧ s.executorNodes = [r.id]) ∧
  (s.recording = false → s.executorNodes = [])

lemma inv_initState (df : String) (fd : Int) (ts : List String) (n : Nat) :
    Inv (initState df fd ts n) := by
  constructor <;> intro h <;> simp [initState] at h ⊢

lemma startRecording_spec (s s' : BagState) (h : startRecording s = some s') :
    s'.recording = true ∧ s'.beginCount = s.beginCount + 1 ∧
    s'.endCount = s.endCount ∧ s'.nextId = s.nextId + 1 ∧
    s'.executorNodes = s.executorNodes ++ [s.nextId] ∧
    ∃ r, s'.recorder_ = some r ∧ r.id = s.nextId := by
  unfold startRecording at h
  cases hopt : recordOptionsFor s.logged_topics_ <;> rw [hopt] at h
  · cases h
  · injection h with h'
    subst h'
    refine ⟨rfl, rfl, rfl, rfl, rfl, ⟨_, rfl, rfl⟩⟩

lemma stopRecording_beginCount (s : BagState) :
    (stopRecording s).beginCount = s.beginCount := by
  unfold stopRecording
  cases hb : s.recording <;> cases hr : s.recorder_ <;> simp

lemma inv_start (s s' : BagState) (hInv : Inv s) (hrec : s.recording = false)
    (h : startRecording s = some s') : Inv s' := by
  have hn : s.executorNodes = [] := hInv.2 hrec
  unfold startRecording at h
  cases hopt : recordOptionsFor s.logged_topics_ <;> rw [hopt] at h
  · cases h
  · injection h with h'
    subst h'
    constructor
    · intro _
      exact ⟨_, rfl, by simp [hn]⟩
    · intro hfalse
      simp at hfalse

lemma inv_stop (s : BagState) (hInv : Inv s) : Inv (stopRecording s) := by
  cases hb : s.recording
  · have : stopRecording s = s := by unfold stopRecording; rw [hb]; rfl
    rw [this]
    exact hInv
  · obtain ⟨r, hr, hn⟩ := hInv.1 hb
    unfold stopRecording
    rw [hb, hr]
    constructor
    · intro hfalse
      simp at hfalse
    · intro _
      simp [hn]

lemma controlCallback_true_of_recording (s : BagState) (h : s.recording = true) :
    controlCallback true s = some s := by
  simp [controlCallback, h]

lemma controlCallback_false_of_idle (s : BagState) (h : s.recording = false) :
    controlCallback false s = some s := by
  simp [controlCallback, h]

lemma controlCallback_true_of_idle (s : BagState) (h : s.recording = false) :
    controlCallback true s = startRecording s := by
  cases hs : startRecording s
  · simp [controlCallback, h, hs]
  · simp [controlCallback, h, hs]

lemma controlCallback_false_of_recording (s : BagState) (h : s.recording = true) :
    controlCallback false s = some (stopRecording s) := by
  simp [controlCallback, h]

lemma inv_controlCallback (e : Bool) (s s' : BagState) (hInv : Inv s)
    (h : controlCallback e s = some s') : Inv s' := by
  cases e <;> cases hb : s.recording
  · rw [controlCallback_false_of_idle s hb] at h
    injection h with h'
    subst h'
    exact hInv
  · rw [controlCallback_false_of_recording s hb] at h
    injection h with h'
    subst h'
    exact inv_stop s hInv
  · rw [controlCallback_true_of_idle s hb] at h
    exact inv_start s s' hInv hb h
  · rw [controlCallback_true_of_recording s hb] at h
    injection h with h'
    subst h'
    exact hInv

lemma inv_run (sigs : List Bool) (s s' : BagState) (hInv : Inv s)
    (h : run sigs s = some s') : Inv s' := by
  induction sigs generalizing s with
  | nil =>
    injection h with h'
    subst h'
    exact hInv
  | cons e rest ih =>
    unfold run at h
    cases hcc : controlCallback e s <;> rw [hcc] at h
    · cases h
    · exact ih _ (inv_controlCallback e s _ hInv hcc) h

lemma beginCount_incr_only_idle (e : Bool) (s s' : BagState)
    (h : controlCallback e s = some s') (hbc : s'.beginCount = s.beginCount + 1) :
    s.recording = false := by
  cases hb : s.recording
  · rfl
  · exfalso
    cases e
    · rw [controlCallback_false_of_recording s hb] at h
      injection h with h'
      subst h'
      rw [stopRecording_beginCount] at hbc
      omega
    · rw [controlCallback_true_of_recording s hb] at h
      injection h with h'
      subst h'
      omega

/-- C1: In every state reachable by processing control signals in arrival
order after the mandatory startup start, at most one recorder node is
registered with the executor, and a session begin (a `beginCount` increment)
can only be triggered by a signal delivered while `recording` is false and
the executor holds no recorder node — the previous session is fully ended
and unregistered before any new one begins, so two simultaneous recording
sessions never exist. -/
theorem atMostOneActiveSession (df : String) (fd : Int) (ts : List String)
    (n : Nat) (sigs : List Bool) (s0 s : BagState)
    (hstart : startRecording (initState df fd ts n) = some s0)
    (hrun : run sigs s0 = some s) :
    s.executorNodes.length ≤ 1 ∧
    ∀ e s', controlCallback e s = some s' → s'.beginCount = s.beginCount + 1 →
      s.recording = false ∧ s.executorNodes = [] := by
  have h0 : Inv s0 := inv_start _ _ (inv_initState df fd ts n) rfl hstart
  have hs : Inv s := inv_run sigs s0 s h0 hrun
  constructor
  · cases hb : s.recording
    · rw [hs.2 hb]
      simp
    · obtain ⟨r, -, hn⟩ := hs.1 hb
      rw [hn]
      simp
  · intro e s' hcc hbc
    have hidle := beginCount_incr_only_idle e s s' hcc hbc
    exact ⟨hidle, hs.2 hidle⟩

/-- C1 witness: concrete run (startup, then one disable signal) on the sample
configuration, with the begin-guard conclusion instantiated at the enable
signal that restarts recording from `sampleIdle`. -/
theorem atMostOneActiveSession_witness :
    sampleIdle.executorNodes.length ≤ 1 ∧
    (sampleIdle.recording = false ∧ sampleIdle.executorNodes = []) :=
  ⟨(atMostOneActiveSession "/d" 60 ["/a"] 0 [false] sampleStart sampleIdle
      (by decide) (by decide)).1,
   (atMostOneActiveSession "/d" 60 ["/a"] 0 [false] sampleStart sampleIdle
      (by decide) (by decide)).2 true sampleNext (by decide) (by decide)⟩

/-- C5: A control signal requesting the currently-held state is a no-op:
enable while recording leaves the state unchanged (no second begin), disable
while idle leaves the state unchanged (zero end calls), and two consecutive
enable signals from idle produce exactly one begin. -/
theorem redundantSignalNoop (s s1 : BagState) :
    (s.recording = true → controlCallback true s = some s) ∧
    (s.recording = false → controlCallback false s = some s) ∧
    (s.recording = false → controlCallback true s = some s1 →
      s1.beginCount = s.beginCount + 1 ∧ controlCallback true s1 = some s1) := by
  refine ⟨controlCallback_true_of_recording s, controlCallback_false_of_idle s, ?_⟩
  intro hb h
  rw [controlCallback_true_of_idle s hb] at h
  obtain ⟨hrec, hbc, -, -, -, -⟩ := startRecording_spec s s1 h
  exact ⟨hbc, controlCallback_true_of_recording s1 hrec⟩

/-- C5 witness: enable delivered to the recording sample state is a no-op,
disable delivered to the idle initial state is a no-op, and enable twice from
the initial state counts exactly one begin. -/
theorem redundantSignalNoop_witness :
    (controlCallback true sampleStart = some sampleStart) ∧
    (controlCallback false cfg0 = some cfg0) ∧
    (sampleStart.beginCount = cfg0.beginCount + 1 ∧
      controlCallback true sampleStart = some sampleStart) :=
  ⟨(redundantSignalNoop sampleStart sampleStart).1 (by decide),
   (redundantSignalNoop cfg0 cfg0).2.1 (by decide),
   (redundantSignalNoop cfg0 sampleStart).2.2 (by decide) (by decide)⟩

/-- C6: For every configuration on which startup succeeds, `start_recording`
followed immediately by `stop_recording` leaves the controller idle with no
recorder node registered with the executor. -/
theorem startThenStopIdle (df : String) (fd : Int) (ts : List String) (n : Nat)
    (s1 : BagState) (h : startRecording (initState df fd ts n) = some s1) :
    (stopRecording s1).recording = false ∧ (stopRecording s1).executorNodes = [] := by
  have hInv : Inv s1 := inv_start _ _ (inv_initState df fd ts n) rfl h
  obtain ⟨hrec, -, -, -, -, -⟩ := startRecording_spec _ _ h
  obtain ⟨r, hr, hn⟩ := hInv.1 hrec
  unfold stopRecording
  rw [hrec, hr]
  simp [hn]

/-- C6 witness: start then stop on the sample configuration. -/
theorem startThenStopIdle_witness :
    (stopRecording sampleStart).recording = false ∧
    (stopRecording sampleStart).executorNodes = [] :=
  startThenStopIdle "/d" 60 ["/a"] 0 sampleStart (by decide)

/-- C10: Stopping a session clears neither `recorder_` nor `writer_`: after
a recording-to-idle transition the stored recorder is still that of the
just-ended session (not null), and it is only replaced, by a freshly
allocated recorder, when the next session begins. -/
theorem stopPreservesRecorder (s : BagState) (r : Recorder)
    (hrec : s.recording = true) (hr : s.recorder_ = some r) (hid : r.id < s.nextId) :
    (stopRecording s).recorder_ = some r ∧
    (stopRecording s).writer_ = s.writer_ ∧
    (stopRecording s).recording = false ∧
    ∀ s', startRecording (stopRecording s) = some s' →
      ∃ r', s'.recorder_ = some r' ∧ r'.id = s.nextId ∧ r' ≠ r := by
  refine ⟨by simp [stopRecording, hrec, hr], by simp [stopRecording, hrec, hr],
    by simp [stopRecording, hrec, hr], ?_⟩
  intro s' h
  obtain ⟨-, -, -, -, -, r', hr', hrid⟩ := startRecording_spec _ _ h
  have hnext : (stopRecording s).nextId = s.nextId := by
    simp [stopRecording, hrec, hr]
  rw [hnext] at hrid
  refine ⟨r', hr', hrid, ?_⟩
  intro heq
  rw [heq] at hrid
  omega

/-- C10 witness: stopping the sample recording session keeps its recorder and
writer handles, and the subsequent restart replaces the recorder with a fresh
one. -/
theorem stopPreservesRecorder_witness :
    ((stopRecording sampleStart).recorder_ = some sampleRecorder ∧
     (stopRecording sampleStart).writer_ = sampleStart.writer_ ∧
     (stopRecording sampleStart).recording = false) ∧
    (∃ r', sampleRestart.recorder_ = some r' ∧ r'.id = sampleStart.nextId ∧
      r' ≠ sampleRecorder) :=
  ⟨⟨(stopPreservesRecorder sampleStart sampleRecorder (by decide) (by decide) (by decide)).1,
    (stopPreservesRecorder sampleStart sampleRecorder (by decide) (by decide) (by decide)).2.1,
    (stopPreservesRecorder sampleStart sampleRecorder (by decide) (by decide) (by decide)).2.2.1⟩,
   (stopPreservesRecorder sampleStart sampleRecorder (by decide) (by decide) (by decide)).2.2.2
     sampleRestart (by decide)⟩

/-- C2 counterexample: on the configured list `["a", "a"]` the filter passes
the duplicates through unchanged, so the explicit topic list is not the
deduplicated list the claim requires. -/
theorem topicFilterDedup_counterexample :
    (recordOptionsFor ["a", "a"]).map RecordOptions.topics = some ["a", "a"] ∧
    (["a", "a"] : List String).dedup = ["a"] ∧
    ["a", "a"] ≠ (["a", "a"] : List String).dedup := by
  decide

/-- C2 amended: for every non-empty configured topic list, a first element
`"*"` yields record-all with an empty explicit topic list; otherwise the
filter yields `recordAll = false` with the explicit topic list exactly the
configured list, duplicates preserved (no deduplication occurs). -/
theorem topicFilterScope (t : String) (ts : List String) :
    (t = "*" → recordOptionsFor (t :: ts) =
      some { all := true, is_discovery_disabled := false, topics := [],
             rmw_serialization_format := "cdr", topic_polling_interval_ms := 1000 }) ∧
    (t ≠ "*" → recordOptionsFor (t :: ts) =
      some { all := false, is_discovery_disabled := false, topics := t :: ts,
             rmw_serialization_format := "cdr", topic_polling_interval_ms := 1000 }) := by
  constructor <;> intro h <;> simp [recordOptionsFor, h]

/-- C2 witness: the wildcard branch on `["*", "/x"]` and the pass-through
branch on the duplicated list `["a", "a"]`. -/
theorem topicFilterScope_witness :
    recordOptionsFor ["*", "/x"] =
      some { all := true, is_discovery_disabled := false, topics := [],
             rmw_serialization_format := "cdr", topic_polling_interval_ms := 1000 } ∧
    recordOptionsFor ["a", "a"] =
      some { all := false, is_discovery_disabled := false, topics := ["a", "a"],
             rmw_serialization_format := "cdr", topic_polling_interval_ms := 1000 } :=
  ⟨(topicFilterScope "*" ["/x"]).1 rfl,
   (topicFilterScope "a" ["a"]).2 (by decide)⟩

/-- C3 counterexample: with the non-positive file duration `0` and topic list
`["/a"]`, startup does not fail with any error — `start_recording` completes
and the process begins recording (`recording = true`). -/
theorem invalidConfigStillRecords_counterexample :
    (startRecording (initState "/data" 0 ["/a"] 0)).map BagState.recording =
      some true := by
  decide

/-- C3 amended: the code performs no configuration validation.  For every
non-empty topic list, `start_recording` succeeds and begins recording
whatever the sign of the configured file duration, which is passed into the
recorder's storage options unchanged; for the empty topic list the wildcard
check reads `logged_topics_[0]` out of bounds (no defined result) instead of
failing with a clean `InvalidConfig` error. -/
theorem noConfigValidation (df : String) (fd : Int) (t : String)
    (ts : List String) (n : Nat) :
    (startRecording (initState df fd (t :: ts) n)).map BagState.recording =
      some true ∧
    (startRecording (initState df fd (t :: ts) n)).map
      (fun s => s.recorder_.map (fun r => r.storage.max_bagfile_duration)) =
      some (some fd) ∧
    startRecording (initState df fd [] n) = none := by
  by_cases h : t = "*" <;>
    simp [startRecording, recordOptionsFor, initState, storageOptionsFor, h]

/-- C4: For every base directory and time instant, the path namer returns the
base directory, then `"/Bag_"`, then the instant formatted as
`YYYY_MM_DD_HH_MM_SS` in UTC; in particular the instant 2024-10-02T03:04:05Z
(epoch second 1727838245) under base `"/data"` maps to
`"/data/Bag_2024_10_02_03_04_05"`. -/
theorem derivePathFormat :
    (∀ base now, getDataPath base now =
      base ++ "/Bag_" ++
        (toString (gmtime now).year ++ "_" ++ pad2 (gmtime now).month ++ "_" ++
         pad2 (gmtime now).day ++ "_" ++ pad2 (gmtime now).hour ++ "_" ++
         pad2 (gmtime now).minute ++ "_" ++ pad2 (gmtime now).second)) ∧
    getDataPath "/data" 1727838245 = "/data/Bag_2024_10_02_03_04_05" := by
  exact ⟨fun base now => rfl, by decide⟩

/-- C7 counterexample: inject a failure at the `record()` call of
`start_recording` on configuration `("/d", 60, ["/a"])`: the exception
escapes (completion flag false) with the recording flag still false, yet the
freshly added recorder node (id 0) is left registered with the executor — a
partial session remains behind. -/
theorem beginFailure_counterexample :
    (startRecordingAt (initState "/d" 60 ["/a"] 0) (some StartStep.record)).2 = false ∧
    (startRecordingAt (initState "/d" 60 ["/a"] 0) (some StartStep.record)).1.recording
      = false ∧
    (startRecordingAt (initState "/d" 60 ["/a"] 0) (some StartStep.record)).1.executorNodes
      = [0] := by
  decide

/-- C7 amended: whenever any single step of `start_recording` fails, the
function does not complete, the recording flag is unchanged (the controller
does not transition to recording) and no begin is counted; however no cleanup
is performed — a failure at the `record()` call, which runs after executor
registration, leaves the new recorder node registered with the execution
context. -/
theorem beginFailureStaysIdle (s : BagState) (f : StartStep) :
    (startRecordingAt s (some f)).2 = false ∧
    (startRecordingAt s (some f)).1.recording = s.recording ∧
    (startRecordingAt s (some f)).1.beginCount = s.beginCount ∧
    (s.logged_topics_ ≠ [] → f = StartStep.record →
      (startRecordingAt s (some f)).1.executorNodes = s.executorNodes ++ [s.nextId]) := by
  cases hls : s.logged_topics_ with
  | nil => cases f <;> simp [startRecordingAt, recordOptionsFor, hls]
  | cons t ts =>
    by_cases ht : t = "*" <;>
      cases f <;> simp [startRecordingAt, recordOptionsFor, hls, ht]

/-- C7 amended witness: the failure injected at `record()` on the sample
configuration. -/
theorem beginFailureStaysIdle_witness :
    (startRecordingAt cfg0 (some StartStep.record)).2 = false ∧
    (startRecordingAt cfg0 (some StartStep.record)).1.recording = cfg0.recording ∧
    (startRecordingAt cfg0 (some StartStep.record)).1.beginCount = cfg0.beginCount ∧
    (startRecordingAt cfg0 (some StartStep.record)).1.executorNodes =
      cfg0.executorNodes ++ [cfg0.nextId] := by
  obtain ⟨h1, h2, h3, h4⟩ := beginFailureStaysIdle cfg0 StartStep.record
  exact ⟨h1, h2, h3, h4 (by decide) rfl⟩

/-- C9: The wildcard test inspects only the first element of the topic list:
any list headed by `"*"` yields record-all with an empty explicit list
whatever the tail, and when the first element is not `"*"` the list is passed
through verbatim with `recordAll = false`, so a later `"*"` is a literal
topic name, never a wildcard. -/
theorem wildcardFirstElementOnly (t : String) (ts ts' : List String) :
    (recordOptionsFor ("*" :: ts) = recordOptionsFor ("*" :: ts')) ∧
    ((recordOptionsFor ("*" :: ts)).map RecordOptions.all = some true) ∧
    ((recordOptionsFor ("*" :: ts)).map RecordOptions.topics = some []) ∧
    (t ≠ "*" →
      (recordOptionsFor (t :: ts)).map RecordOptions.all = some false ∧
      (recordOptionsFor (t :: ts)).map RecordOptions.topics = some (t :: ts)) := by
  refine ⟨by simp [recordOptionsFor], by simp [recordOptionsFor],
    by simp [recordOptionsFor], ?_⟩
  intro h
  simp [recordOptionsFor, h]

/-- C9 witness: a `"*"` in second position of `["a", "*"]` stays a literal
topic name with record-all off. -/
theorem wildcardFirstElementOnly_witness :
    (recordOptionsFor ["a", "*"]).map RecordOptions.all = some false ∧
    (recordOptionsFor ["a", "*"]).map RecordOptions.topics = some ["a", "*"] :=
  (wildcardFirstElementOnly "a" ["*"] []).2.2.2 (by decide)

end BagRec
